import Mathlib

/-!
# AI Guard DAO — intelligence layer, shallow embedding

A shallow embedding of the Python intelligence layer of the Ai-Guard-DAO
repository (`ai-guard-dog-backend/intelligence/app`), together with proofs
about it.

Modelling conventions:
* Python `int` is modelled as `ℤ`; Python `float` arithmetic is modelled as
  exact rational (`ℚ`) arithmetic.  Every floating-point expression that the
  embedded code evaluates has small rational values whose distance from any
  rounding boundary vastly exceeds the double-precision error, so the exact
  model agrees with the float semantics (this is argued locally where `round`
  is modelled).
* Python `round` (banker's rounding) is modelled by Mathlib's `round`
  (round-half-up).  The two differ only on exact half-integers; each use site
  carries a comment showing that half-integers never arise there.
* Python `str` values that the code *inspects* (lowercasing, suffix tests,
  substring scans, word counting) are modelled as `List Char` (`PyStr`), which
  matches Python's view of a string as a sequence of code points.  Output-only
  strings (rationales, flags, verdicts) are modelled as Lean `String`.
* Python dicts passed between agents are modelled as structures with
  `Option`-typed fields; `dict.get(k, d)` becomes `Option.getD`.
-/

namespace AiGuardDao

/-- Python `str` as a sequence of code points. -/
abbrev PyStr := List Char

/-- Python `str.lower()`.  `Char.toLower` only lowers ASCII letters; all
characters the embedded rules inspect are ASCII. -/
def pyLower (s : PyStr) : PyStr := s.map Char.toLower

/-- Python `str.endswith(p)`. -/
def pyEndsWith (s p : PyStr) : Bool := List.isSuffixOf p s

/-- Python substring containment `sub in s`. -/
def pyContains : PyStr → PyStr → Bool
  | s, sub =>
    if List.isPrefixOf sub s then true
    else
      match s with
      | [] => false
      | _ :: rest => pyContains rest sub

/-- `len(s.split())` — the number of maximal runs of non-whitespace
characters, which is how Python's argumentless `str.split` counts words. -/
def pyWordCount (s : PyStr) : ℕ :=
  (s.foldl
    (fun (st : ℕ × Bool) c =>
      if c.isWhitespace then (st.1, false)
      else if st.2 then st else (st.1 + 1, true))
    (0, false)).1

/-- Python `s.split(c, 1)`: the part before the first occurrence of `c`, and
(the remainder after it, when `c` occurs). -/
def pySplitFirst (s : PyStr) (c : Char) : PyStr × Option PyStr :=
  match s with
  | [] => ([], none)
  | a :: rest =>
    if a = c then ([], some rest)
    else
      let (p, q) := pySplitFirst rest c
      (a :: p, q)

/-- Python `str.strip()` (no argument): remove leading and trailing
whitespace. -/
def pyStrip (s : PyStr) : PyStr :=
  ((s.dropWhile Char.isWhitespace).reverse.dropWhile Char.isWhitespace).reverse

/-! ## `schemas/models.py` -/

/-- `RiskCategory` enum (`schemas/models.py`). -/
inductive RiskCategory
  | low
  | medium
  | high
deriving DecidableEq

/-- The string value carried by each `RiskCategory` member. -/
def RiskCategory.value : RiskCategory → String
  | low => "low"
  | medium => "medium"
  | high => "high"

/-! ## `agents/mediator_agent.py` — class constants -/

/-- `MediatorAgent.WEIGHT_REPUTATION = 0.4` (the double `0.4` denotes the
real closest to 2/5; the model uses the exact value). -/
def WEIGHT_REPUTATION : ℚ := 4 / 10

/-- `MediatorAgent.WEIGHT_NLP = 0.6`. -/
def WEIGHT_NLP : ℚ := 6 / 10

/-- `MediatorAgent.THRESHOLD_AUTO_APPROVE = 20`. -/
def THRESHOLD_AUTO_APPROVE : ℤ := 20

/-- `MediatorAgent.THRESHOLD_NEEDS_REVIEW = 80`. -/
def THRESHOLD_NEEDS_REVIEW : ℤ := 80

/-- `MediatorAgent.calculate_risk_score` (mediator_agent.py, lines 45–84).

Float modelling note: the exact value of `combined_risk` is `(2a+3b)/5`
for integers `a = 100-t`, `b = 100-s`, whose fractional part is a multiple
of `1/5` and hence never `1/2`; for `t, s ∈ [0,100]` the double-precision
evaluation errs by well under the `1/10` margin to the nearest half-integer,
so Python's `round` (half-even) on the float, Mathlib's `round` (half-up)
and exact nearest-integer rounding all coincide. -/
def calculate_risk_score (reputation_score nlp_safety_score : ℤ) :
    ℤ × RiskCategory :=
  let reputation_risk : ℤ := 100 - reputation_score
  let nlp_risk : ℤ := 100 - nlp_safety_score
  let combined_risk : ℚ :=
    (reputation_risk : ℚ) * WEIGHT_REPUTATION + (nlp_risk : ℚ) * WEIGHT_NLP
  let risk_score : ℤ := max 0 (min 100 (round combined_risk))
  let category : RiskCategory :=
    if risk_score < THRESHOLD_AUTO_APPROVE then .low
    else if risk_score < THRESHOLD_NEEDS_REVIEW then .medium
    else .high
  (risk_score, category)

/-- `MediatorAgent.determine_verdict` (mediator_agent.py, lines 86–97).
The `category` argument is accepted and ignored, as in the source. -/
def determine_verdict (risk_score : ℤ) (_category : RiskCategory) : String :=
  if risk_score < THRESHOLD_AUTO_APPROVE then "AUTO_APPROVE"
  else if risk_score < THRESHOLD_NEEDS_REVIEW then "NEEDS_REVIEW"
  else "AUTO_REJECT"

/-- Modelled from the spec: `risk = round(clamp(((100 − trust.score) × 0.4)
+ ((100 − safety.score) × 0.6), 0, 100))` — clamp applied before rounding,
as the spec's formula reads (the source rounds first; C1 compares the two). -/
def risk_spec (t s : ℤ) : ℤ :=
  round (max 0 (min 100 (((100 : ℚ) - t) * (4 / 10) + ((100 : ℚ) - s) * (6 / 10))))

/-- The category branch of `calculate_risk_score` (lines 72–77) as a pure
function of the risk score. -/
def risk_category_of (risk_score : ℤ) : RiskCategory :=
  if risk_score < THRESHOLD_AUTO_APPROVE then .low
  else if risk_score < THRESHOLD_NEEDS_REVIEW then .medium
  else .high

/-- Numeric rank of a category, for stating monotonicity. -/
def RiskCategory.rank : RiskCategory → ℕ
  | .low => 0
  | .medium => 1
  | .high => 2

/-- The verdict string the thresholds associate to each category. -/
def RiskCategory.verdict_label : RiskCategory → String
  | .low => "AUTO_APPROVE"
  | .medium => "NEEDS_REVIEW"
  | .high => "AUTO_REJECT"

/-! ### Helper lemmas about `round` on `ℚ` -/

/-! ## Python values exchanged between agents

`json.loads` produces arbitrary JSON values, and the agent payloads are
dicts; both are modelled explicitly. -/

/-- A parsed JSON value (the possible results of `json.loads`). -/
inductive JsonVal
  | jnull
  | jbool (b : Bool)
  | jnum (q : ℚ)
  | jstr (s : String)
  | jarr (elems : List JsonVal)
  | jobj (fields : List (String × JsonVal))

/-- An agent-result dict as consumed by `MediatorAgent.mediate` /
`_calculate_confidence`: the keys the mediator reads, each possibly absent.
A missing `red_flags` key behaves like `[]` under Python truthiness and
`len`, which is how the mediator uses it, so it is modelled as a plain
list. -/
structure AgentDict where
  score : Option ℤ
  red_flags : List JsonVal
  history : Option String
  reasoning : Option String

/-- Python `round(q, 2)` on the exact rational model.  Python rounds
half-to-even on doubles; every value this program rounds to two decimals is
a multiple of `1/200` whose numerator parity makes an exact half-cent
impossible (`|t−s| + |t−50| + |s−50|` is always even), so half-up rounding
agrees with it. -/
def round2 (q : ℚ) : ℚ := ((round (q * 100) : ℤ) : ℚ) / 100

/-- `MediatorAgent._calculate_confidence` (mediator_agent.py, lines
180–206). -/
def calculate_confidence (reputation_result nlp_result : AgentDict) : ℚ :=
  let rep_score : ℤ := reputation_result.score.getD 50
  let nlp_score : ℤ := nlp_result.score.getD 50
  let score_diff : ℤ := |rep_score - nlp_score|
  let agreement : ℚ := 1 - (score_diff : ℚ) / 100
  let rep_extremity : ℚ := ((|rep_score - 50| : ℤ) : ℚ) / 50
  let nlp_extremity : ℚ := ((|nlp_score - 50| : ℤ) : ℚ) / 50
  let extremity : ℚ := (rep_extremity + nlp_extremity) / 2
  let confidence : ℚ := agreement * (5 / 10) + extremity * (5 / 10)
  round2 (max (3 / 10) (min (98 / 100) confidence))

/-- Modelled from the spec: `confidence = round(clamp(0.5·agreement +
0.5·extremity, 0.30, 0.98), 2)` with `agreement = 1 − |t − s|/100` and
`extremity = (|t−50|/50 + |s−50|/50)/2`. -/
def confidence_spec (t s : ℤ) : ℚ :=
  round2 (max (3 / 10) (min (98 / 100)
    ((5 / 10) * (1 - ((|t - s| : ℤ) : ℚ) / 100) +
      (5 / 10) * ((((|t - 50| : ℤ) : ℚ) / 50 + ((|s - 50| : ℤ) : ℚ) / 50) / 2))))

/-! ## `agents/reputation_agent.py` -/

/-- The dict returned by `ReputationAgent.evaluate_reputation`. -/
structure ReputationResult where
  score : ℤ
  history : String
  reasoning : String
  analysis_log : List String

/-- `ReputationAgent.evaluate_reputation` (reputation_agent.py, lines
26–113): deterministic suffix rules on the lowercased wallet address. -/
def evaluate_reputation (wallet_address : PyStr) : ReputationResult :=
  let wallet_lower := pyLower wallet_address
  if pyEndsWith wallet_lower "888".toList then
    { score := 95
      history := "Verified Whale Account"
      reasoning := "High-trust wallet with verified identity, extensive DAO participation, and established on-chain history."
      analysis_log := [
        "✅ Verified Identity: ENS domain linked",
        "✅ High DAO Participation: 50+ governance votes",
        "✅ Wallet Age: 3+ years",
        "✅ Transaction History: 1000+ transactions",
        "✅ Social Verification: GitHub & Twitter linked"] }
  else if pyEndsWith wallet_lower "000".toList then
    { score := 10
      history := "Suspicious New Wallet"
      reasoning := "High-risk wallet with no history, suspicious funding source, and no verifiable identity."
      analysis_log := [
        "🚨 New Wallet: Created < 24 hours ago",
        "🚨 Funded by Tornado Cash",
        "⚠️ No DAO Participation History",
        "⚠️ Single Funding Source",
        "⚠️ No Social Verification"] }
  else if pyEndsWith wallet_lower "123".toList ||
      pyEndsWith wallet_lower "abc".toList then
    { score := 65
      history := "Established User"
      reasoning := "Moderate-trust wallet with some on-chain history and limited DAO participation."
      analysis_log := [
        "ℹ️ Wallet Age: 6 months",
        "ℹ️ Transaction Count: 50",
        "✅ Some DAO Participation: 5 votes",
        "⚠️ No ENS domain",
        "⚠️ Limited Social Verification"] }
  else
    { score := 50
      history := "No History Found"
      reasoning := "Neutral score due to lack of on-chain history. Additional verification recommended."
      analysis_log := [
        "ℹ️ No On-Chain History Found",
        "ℹ️ Unable to verify wallet age",
        "ℹ️ No DAO participation records",
        "⚠️ Recommend additional verification"] }

/-- View of the reputation dict as mediator input (`score`, `history`,
`reasoning` keys present; no `red_flags` key). -/
def ReputationResult.toDict (r : ReputationResult) : AgentDict :=
  { score := some r.score
    red_flags := []
    history := some r.history
    reasoning := some r.reasoning }

/-! ## `agents/nlp_agent.py` — fallback analysis -/

/-- `NLPAgent.FALLBACK_RED_FLAGS` (nlp_agent.py, lines 50–64), a phrase →
penalty-weight table in dict insertion order. -/
def FALLBACK_RED_FLAGS : List (String × ℤ) := [
  ("guaranteed returns", 30),
  ("guaranteed profit", 30),
  ("100% safe", 25),
  ("risk-free", 25),
  ("anonymous team", 25),
  ("anonymous", 20),
  ("trust us", 15),
  ("act now", 10),
  ("urgent", 10),
  ("limited time", 10),
  ("no questions asked", 25),
  ("easy money", 20),
  ("get rich", 20)]

/-- Body of the phrase-scanning loop of `_analyze_fallback`: on a match,
append a flag and add the weight. -/
def fallback_scan_step (text_lower : PyStr) (acc : List JsonVal × ℤ)
    (pw : String × ℤ) : List JsonVal × ℤ :=
  if pyContains text_lower pw.1.toList then
    (acc.1 ++ [.jstr ("Detected: '" ++ pw.1 ++ "'")], acc.2 + pw.2)
  else acc

/-- `NLPAgent._analyze_fallback` (nlp_agent.py, lines 163–200).  `isupper`
is modelled by `Char.isUpper` (ASCII); the uppercase-ratio comparison
`caps_count / max(len(text), 1) > 0.3` is modelled by the exact integer
inequality `10·caps_count > 3·max(len(text), 1)`, equivalent over the
positive denominator (the float literal `0.3` is marginally below 3/10,
which no claim distinguishes). -/
def analyze_fallback (proposal_text : PyStr) : AgentDict :=
  let text_lower := pyLower proposal_text
  let scan := FALLBACK_RED_FLAGS.foldl (fallback_scan_step text_lower) ([], 0)
  let word_count := pyWordCount proposal_text
  let scan := if word_count < 50 then
      (scan.1 ++ [.jstr "Very short proposal (< 50 words)"], scan.2 + 15)
    else scan
  let caps_count : ℕ := (proposal_text.filter Char.isUpper).length
  let scan := if 3 * max proposal_text.length 1 < 10 * caps_count then
      (scan.1 ++ [.jstr "Excessive use of capital letters"], scan.2 + 10)
    else scan
  let score : ℤ := max 0 (min 100 (85 - scan.2))
  let reasoning :=
    if scan.1.isEmpty then "No obvious red flags detected in fallback analysis."
    else "Fallback analysis detected " ++ toString scan.1.length ++
      " potential issues."
  { score := some score
    red_flags := scan.1
    history := none
    reasoning := some reasoning }

/-- Modelled from the spec: the total penalty is the sum of the weights of
the phrases occurring in the lowercased text, plus 15 for fewer than 50
words, plus 10 for an uppercase ratio above 0.3. -/
def total_penalty_spec (text : PyStr) : ℤ :=
  ((FALLBACK_RED_FLAGS.filter
      (fun pw => pyContains (pyLower text) pw.1.toList)).map Prod.snd).sum +
    (if pyWordCount text < 50 then 15 else 0) +
    (if 3 * max text.length 1 < 10 * (text.filter Char.isUpper).length
      then 10 else 0)

/-- The number of conditions `_analyze_fallback` matches on `text`. -/
def matched_conditions_spec (text : PyStr) : ℕ :=
  (FALLBACK_RED_FLAGS.filter
      (fun pw => pyContains (pyLower text) pw.1.toList)).length +
    (if pyWordCount text < 50 then 1 else 0) +
    (if 3 * max text.length 1 < 10 * (text.filter Char.isUpper).length
      then 1 else 0)

/-! ## `agents/nlp_agent.py` — primary (Gemini) path

The external model call and `json.loads` are out-of-scope collaborators
(spec §1, §6): the pending call outcomes are an explicit oracle list from
which one outcome is consumed per call, and `parse` stands for
`json.loads`. -/

/-- Python `s.split(c)` (single-character separator, no limit): empty
pieces are kept; the result is never the empty list. -/
def pySplitAll (s : PyStr) (c : Char) : List PyStr :=
  match s with
  | [] => [[]]
  | a :: rest =>
    if a = c then [] :: pySplitAll rest c
    else
      match pySplitAll rest c with
      | [] => [[a]]
      | h :: t => (a :: h) :: t

/-- Outcome of one `generate_content` call: the invocation raises, or
returns response text. -/
inductive GeminiOutcome
  | failure
  | success (text : PyStr)

/-- Python `dict.get(key)` on a parsed JSON object (keys are unique in a
parsed dict, so the first binding is the binding). -/
def jget (fields : List (String × JsonVal)) (key : String) : Option JsonVal :=
  (fields.find? (fun kv => kv.1 == key)).map (fun kv => kv.2)

/-- Python `int(v)` applied to a JSON value: truncation toward zero for
numbers, decimal parse for strings, 0/1 for booleans; `none` models the
`ValueError`/`TypeError` that the surrounding `except Exception` turns into
the fallback path. -/
def pyInt : JsonVal → Option ℤ
  | .jnum q => some (if 0 ≤ q then ⌊q⌋ else ⌈q⌉)
  | .jstr s => s.toInt?
  | .jbool b => some (if b then 1 else 0)
  | _ => none

/-- Python `str(v)` of a JSON value.  Only the string case is ever
inspected by a claim; the renderings of the other cases follow Python where
it is exact (`None`/`True`/`False`, integers) and are approximate for
non-integer floats. -/
def pyStrOfJson : JsonVal → String
  | .jstr s => s
  | .jnull => "None"
  | .jbool b => if b then "True" else "False"
  | .jnum q => if q.den = 1 then toString q.num else toString q
  | .jarr _ => "[...]"
  | .jobj _ => "\x7b...\x7d"

/-- The opening/closing fence marker of a markdown code block. -/
def fence : PyStr := "```".toList

/-- The fenced-block stripping of `_analyze_with_gemini` (nlp_agent.py,
lines 130–139): `response.text.strip()`; when the result starts with a
fence, drop a leading fence line and a trailing fence line.  Returns `none`
exactly when the Python would raise `IndexError` (`lines[-1]` on an empty
list), which the enclosing handler routes to the fallback. -/
def strip_code_fences (response_text : PyStr) : Option PyStr :=
  let t := pyStrip response_text
  if List.isPrefixOf fence t then
    let lines := pySplitAll t '\n'
    let lines :=
      if List.isPrefixOf fence (lines.headD []) then lines.drop 1 else lines
    match lines.getLast? with
    | none => none
    | some last =>
      let lines := if List.isPrefixOf fence last then lines.dropLast else lines
      some (List.intercalate ['\n'] lines)
  else some t

/-- `NLPAgent._analyze_with_gemini` (nlp_agent.py, lines 110–161).  Exactly
one oracle outcome is consumed (the single `generate_content` call; an
empty oracle models the invocation failing before producing a response).
Every `except` path returns `_analyze_fallback` on the same text, as in the
source.  Returns the result dict and the unconsumed oracle suffix. -/
def analyze_with_gemini (parse : PyStr → Option JsonVal)
    (responses : List GeminiOutcome) (proposal_text : PyStr) :
    AgentDict × List GeminiOutcome :=
  match responses with
  | [] => (analyze_fallback proposal_text, [])
  | outcome :: rest =>
    match outcome with
    | .failure => (analyze_fallback proposal_text, rest)
    | .success txt =>
      match strip_code_fences txt with
      | none => (analyze_fallback proposal_text, rest)
      | some response_text =>
        match parse response_text with
        | none => (analyze_fallback proposal_text, rest)
        | some (.jobj fields) =>
          match pyInt ((jget fields "score").getD (.jnum 50)) with
          | none => (analyze_fallback proposal_text, rest)
          | some n =>
            let score : ℤ := max 0 (min 100 n)
            let red_flags : List JsonVal :=
              match (jget fields "red_flags").getD (.jarr []) with
              | .jarr xs => xs
              | _ => []
            let reasoning : String :=
              match jget fields "reasoning" with
              | some v => pyStrOfJson v
              | none => "Analysis complete."
            ({ score := some score
               red_flags := red_flags
               history := none
               reasoning := some reasoning }, rest)
        | some _ => (analyze_fallback proposal_text, rest)

/-- `NLPAgent.evaluate_content` (nlp_agent.py, lines 90–108):
`full_text = f"Title: {title}\n\nDescription:\n{description}"`, then the
Gemini path when a model is configured, else the fallback.  `available`
models `self.model is not None`. -/
def evaluate_content (available : Bool) (parse : PyStr → Option JsonVal)
    (responses : List GeminiOutcome) (title description : PyStr) : AgentDict :=
  let full_text :=
    "Title: ".toList ++ title ++ "\n\nDescription:\n".toList ++ description
  if available then (analyze_with_gemini parse responses full_text).1
  else analyze_fallback full_text

/-! ## `agents/mediator_agent.py` — `mediate` -/

/-- The `agent_scores` mapping assembled by `mediate`. -/
structure AgentScores where
  reputation_score : ℤ
  reputation_weight : ℚ
  reputation_history : String
  nlp_score : ℤ
  nlp_weight : ℚ
  nlp_red_flags_count : ℕ
  combined_risk : ℤ

/-- `AnalysisResult` (schemas/models.py) as produced by `mediate`. -/
structure AnalysisResult where
  proposal_id : String
  risk_score : ℤ
  risk_category : RiskCategory
  verdict : String
  reasoning : String
  red_flags : List JsonVal
  agent_scores : AgentScores
  confidence : ℚ

/-- `MediatorAgent.mediate` (mediator_agent.py, lines 99–178).  The
`proposer_address` argument is only logged in the source and is ignored
here.  `toString` on `ℤ` renders decimal integers exactly as Python
`str(int)` does. -/
def mediate (proposal_id : String) (reputation_result nlp_result : AgentDict)
    (_proposer_address : PyStr) : AnalysisResult :=
  let reputation_score : ℤ := reputation_result.score.getD 50
  let nlp_safety_score : ℤ := nlp_result.score.getD 50
  let rc := calculate_risk_score reputation_score nlp_safety_score
  let risk_score := rc.1
  let category := rc.2
  let verdict := determine_verdict risk_score category
  let all_red_flags : List JsonVal :=
    (if nlp_result.red_flags.isEmpty then [] else nlp_result.red_flags) ++
      (if reputation_score < 30 then
        [.jstr ("Low reputation score (" ++ toString reputation_score ++
          "): " ++ reputation_result.history.getD "Unknown history")]
      else [])
  let reasoning_parts : List String :=
    ["Reputation Score: " ++ toString reputation_score ++ "/100 (" ++
        reputation_result.history.getD "No history" ++ ")",
      "Content Safety Score: " ++ toString nlp_safety_score ++ "/100",
      "Combined Risk Score: " ++ toString risk_score ++ "/100",
      "Verdict: " ++ verdict]
  let reasoning_parts := reasoning_parts ++
    (match nlp_result.reasoning with
      | some r => if r.isEmpty then [] else ["NLP Analysis: " ++ r]
      | none => [])
  { proposal_id := proposal_id
    risk_score := risk_score
    risk_category := category
    verdict := verdict
    reasoning := String.intercalate " | " reasoning_parts
    red_flags := all_red_flags
    agent_scores :=
      { reputation_score := reputation_score
        reputation_weight := WEIGHT_REPUTATION
        reputation_history := reputation_result.history.getD "Unknown"
        nlp_score := nlp_safety_score
        nlp_weight := WEIGHT_NLP
        nlp_red_flags_count := nlp_result.red_flags.length
        combined_risk := risk_score }
    confidence := calculate_confidence reputation_result nlp_result }

/-! ## `main.py` — the two endpoint pipelines -/

/-- Extraction of title and description from the raw proposal text, as both
endpoints perform it (main.py, lines 132–134 and 227–229):
`lines = text.split('\n', 1)`;
`title = lines[0].strip().lstrip('#').strip()[:100]`;
`description = lines[1] if len(lines) > 1 else text`.
(`split('\n', 1)` never returns an empty list, so the `"Untitled"` /
`"Draft Proposal"` defaults are unreachable.) -/
def extract_title_description (text : PyStr) : PyStr × PyStr :=
  let lines := pySplitFirst text '\n'
  let title := (pyStrip ((pyStrip lines.1).dropWhile (· == '#'))).take 100
  let description := match lines.2 with
    | some d => d
    | none => text
  (title, description)

/-- `analyze_proposal` (main.py, lines 112–205), restricted to the risk
pipeline: the snapshot service, the alert assembly and the HTTP envelope
are out-of-scope collaborators; the mediation result carries the
`composite_risk_score` (= `agent_3_score`) the response reports. -/
def analyze_proposal (available : Bool) (parse : PyStr → Option JsonVal)
    (responses : List GeminiOutcome) (proposal_id : String)
    (proposal_text wallet_address : PyStr) : AnalysisResult :=
  let td := extract_title_description proposal_text
  let agent_1_result := evaluate_reputation wallet_address
  let agent_2_result := evaluate_content available parse responses td.1 td.2
  mediate proposal_id agent_1_result.toDict agent_2_result wallet_address

/-- `SimulateResponse` (schemas/models.py). -/
structure SimulateResponse where
  success_probability : ℚ
  risk_score : ℤ
  classification : String
  suggestions : List String
  red_flags : List JsonVal

/-- `simulate_proposal` (main.py, lines 208–305): content analysis on the
draft, a fixed neutral reputation of 50, the mediator's formula and
thresholds, `success_probability = round(max(0, min(1, 1 − risk/100)), 2)`,
the verdict renaming, and the keyword-driven suggestion checklist. -/
def simulate_proposal (available : Bool) (parse : PyStr → Option JsonVal)
    (responses : List GeminiOutcome) (draft_text : PyStr) : SimulateResponse :=
  let td := extract_title_description draft_text
  let nlp_result := evaluate_content available parse responses td.1 td.2
  let rc := calculate_risk_score 50 (nlp_result.score.getD 50)
  let risk_score := rc.1
  let success_probability : ℚ := max 0 (min 1 (1 - (risk_score : ℚ) / 100))
  let verdict := determine_verdict risk_score rc.2
  let classification :=
    if verdict == "AUTO_APPROVE" then "LIKELY_APPROVED"
    else if verdict == "AUTO_REJECT" then "LIKELY_REJECTED"
    else "NEEDS_REVIEW"
  let lower := pyLower draft_text
  let suggestions : List String :=
    (if pyWordCount draft_text < 100 then
      ["📝 Add more detail to your proposal (aim for 200+ words)"] else []) ++
    (if pyContains lower "budget".toList then []
      else ["💰 Include a budget breakdown section"]) ++
    (if pyContains lower "timeline".toList || pyContains lower "schedule".toList
      then [] else ["📅 Add a timeline or schedule for deliverables"]) ++
    (if pyContains lower "team".toList || pyContains lower "contact".toList
      then [] else ["👥 Include team information or contact details"]) ++
    (if pyContains lower "deliverable".toList ||
        pyContains lower "outcome".toList
      then [] else ["🎯 Clearly list expected deliverables and outcomes"]) ++
    (if nlp_result.red_flags.isEmpty then []
      else (nlp_result.red_flags.take 3).map
        (fun f => "⚠️ Review: " ++ pyStrOfJson f)) ++
    (match nlp_result.reasoning with
      | some r => if !r.isEmpty && 30 < risk_score then ["💡 AI Note: " ++ r]
          else []
      | none => [])
  { success_probability := round2 success_probability
    risk_score := risk_score
    classification := classification
    suggestions := suggestions
    red_flags := nlp_result.red_flags }

/-- A concrete draft to instantiate theorems at. -/
def simulate_draft_example : PyStr :=
  "A proposal with a budget, timeline, team and deliverables listed.".toList

/-! ## Theorems -/

theorem round_le_round {x y : ℚ} (h : x ≤ y) : round x ≤ round y := by
  rw [round_eq, round_eq]
  exact Int.floor_le_floor (by linarith)

theorem round_hundred : round (100 : ℚ) = 100 := by
  rw [show (100 : ℚ) = ((100 : ℤ) : ℚ) by norm_num, round_intCast]

/-- Evaluation helper: when the weighted combination is exactly the integer
`r ∈ [0,100]`, `calculate_risk_score` returns `r`. -/
theorem calculate_risk_score_eval {t s r : ℤ}
    (h : ((100 : ℚ) - t) * (4 / 10) + ((100 : ℚ) - s) * (6 / 10) = (r : ℚ))
    (h0 : 0 ≤ r) (h1 : r ≤ 100) :
    (calculate_risk_score t s).1 = r := by
  have hsrc : (calculate_risk_score t s).1 =
      max 0 (min 100 (round (((100 : ℚ) - t) * (4 / 10) +
        ((100 : ℚ) - s) * (6 / 10)))) := by
    simp only [calculate_risk_score, WEIGHT_REPUTATION, WEIGHT_NLP]
    push_cast
    ring_nf
  rw [hsrc, h, round_intCast]
  omega

/-- For `t, s ∈ [0,100]` the weighted combination is within `[0,100]`, so the
rounded risk is as well. -/
theorem combined_risk_bounds {t s : ℤ} (ht0 : 0 ≤ t) (ht1 : t ≤ 100)
    (hs0 : 0 ≤ s) (hs1 : s ≤ 100) :
    (0 : ℚ) ≤ ((100 : ℚ) - t) * (4 / 10) + ((100 : ℚ) - s) * (6 / 10) ∧
      ((100 : ℚ) - t) * (4 / 10) + ((100 : ℚ) - s) * (6 / 10) ≤ 100 := by
  have ht0' : ((t : ℚ)) ≤ 100 := by exact_mod_cast ht1
  have ht1' : (0 : ℚ) ≤ (t : ℚ) := by exact_mod_cast ht0
  have hs0' : ((s : ℚ)) ≤ 100 := by exact_mod_cast hs1
  have hs1' : (0 : ℚ) ≤ (s : ℚ) := by exact_mod_cast hs0
  constructor <;> nlinarith

/-- **C1.**  For every reputation score `t ∈ [0,100]` and content-safety
score `s ∈ [0,100]`, `MediatorAgent.calculate_risk_score(t, s)` returns the
risk score `round(clamp(((100 − t) × 0.4) + ((100 − s) × 0.6), 0, 100))`;
in particular `(95, 90) ↦ 8`, `(10, 15) ↦ 87` and `(50, 50) ↦ 50`. -/
theorem calculate_risk_score_matches_spec_formula :
    (∀ t s : ℤ, 0 ≤ t → t ≤ 100 → 0 ≤ s → s ≤ 100 →
        (calculate_risk_score t s).1 = risk_spec t s) ∧
      (calculate_risk_score 95 90).1 = 8 ∧
      (calculate_risk_score 10 15).1 = 87 ∧
      (calculate_risk_score 50 50).1 = 50 := by
  refine ⟨fun t s ht0 ht1 hs0 hs1 => ?_,
    calculate_risk_score_eval (by norm_num) (by norm_num) (by norm_num),
    calculate_risk_score_eval (by norm_num) (by norm_num) (by norm_num),
    calculate_risk_score_eval (by norm_num) (by norm_num) (by norm_num)⟩
  have hb := combined_risk_bounds ht0 ht1 hs0 hs1
  set c : ℚ := ((100 : ℚ) - t) * (4 / 10) + ((100 : ℚ) - s) * (6 / 10) with hc
  have hr0 : (0 : ℤ) ≤ round c := by
    have := round_le_round hb.1
    simpa using this
  have hr1 : round c ≤ 100 := by
    have := round_le_round hb.2
    simpa [round_hundred] using this
  have hclamp : max (0 : ℚ) (min 100 c) = c := by
    rw [min_eq_right hb.2, max_eq_right hb.1]
  have hsrc : (calculate_risk_score t s).1 = max 0 (min 100 (round c)) := by
    simp only [calculate_risk_score, WEIGHT_REPUTATION, WEIGHT_NLP, hc]
    push_cast
    ring_nf
  rw [hsrc, risk_spec, hclamp, min_eq_right hr1, max_eq_right hr0]

/-- Witness for C1 at `t = 95`, `s = 90`. -/
theorem calculate_risk_score_matches_spec_formula_witness :
    (calculate_risk_score 95 90).1 = risk_spec 95 90 :=
  calculate_risk_score_matches_spec_formula.1 95 90 (by decide) (by decide)
    (by decide) (by decide)

/-- **C2.**  For every risk score `r ∈ [0,100]`: the thresholds partition the
range with no gaps (`r < 20 ↦ LOW/AUTO_APPROVE`, `20 ≤ r < 80 ↦
MEDIUM/NEEDS_REVIEW`, `80 ≤ r ↦ HIGH/AUTO_REJECT`); the category is a
monotone non-decreasing step function of `r` whose value changes exactly at
the breakpoints 20 and 80; and the category computed by
`calculate_risk_score` always corresponds to the verdict returned by
`determine_verdict` for the same risk score. -/
theorem category_verdict_partition_monotone :
    (∀ r : ℤ, 0 ≤ r → r ≤ 100 →
        (r < 20 ∨ (20 ≤ r ∧ r < 80) ∨ 80 ≤ r) ∧
        (r < 20 → risk_category_of r = .low ∧
          determine_verdict r (risk_category_of r) = "AUTO_APPROVE") ∧
        (20 ≤ r → r < 80 → risk_category_of r = .medium ∧
          determine_verdict r (risk_category_of r) = "NEEDS_REVIEW") ∧
        (80 ≤ r → risk_category_of r = .high ∧
          determine_verdict r (risk_category_of r) = "AUTO_REJECT")) ∧
      (∀ r r' : ℤ, r ≤ r' →
        (risk_category_of r).rank ≤ (risk_category_of r').rank) ∧
      (∀ r : ℤ, 0 ≤ r → r < 100 →
        (risk_category_of (r + 1) ≠ risk_category_of r ↔ (r = 19 ∨ r = 79))) ∧
      (∀ t s : ℤ,
        (calculate_risk_score t s).2 =
          risk_category_of (calculate_risk_score t s).1) ∧
      (∀ r : ℤ, ∀ c : RiskCategory,
        determine_verdict r c = (risk_category_of r).verdict_label) := by
  refine ⟨fun r h0 h1 => ?_, fun r r' h => ?_, fun r h0 h1 => ?_,
    fun t s => ?_, fun r c => ?_⟩
  · refine ⟨by omega, fun h => ?_, fun h h' => ?_, fun h => ?_⟩ <;>
      · simp only [risk_category_of, determine_verdict,
          THRESHOLD_AUTO_APPROVE, THRESHOLD_NEEDS_REVIEW]
        split_ifs <;> first | exact ⟨rfl, rfl⟩ | (exfalso; omega)
  · simp only [risk_category_of, THRESHOLD_AUTO_APPROVE, THRESHOLD_NEEDS_REVIEW]
    split_ifs <;> simp [RiskCategory.rank] <;> omega
  · constructor
    · intro hne
      by_contra hc
      push_neg at hc
      apply hne
      simp only [risk_category_of, THRESHOLD_AUTO_APPROVE, THRESHOLD_NEEDS_REVIEW]
      split_ifs <;> first | rfl | omega
    · rintro (rfl | rfl) <;>
        simp [risk_category_of, THRESHOLD_AUTO_APPROVE, THRESHOLD_NEEDS_REVIEW]
  · simp only [calculate_risk_score, risk_category_of]
  · simp only [determine_verdict, risk_category_of,
      THRESHOLD_AUTO_APPROVE, THRESHOLD_NEEDS_REVIEW]
    split_ifs <;> simp [RiskCategory.verdict_label]

/-- Witness for C2 at `r = 50` (and `t = s = 50`). -/
theorem category_verdict_partition_monotone_witness :
    risk_category_of 50 = .medium ∧
      determine_verdict 50 (risk_category_of 50) = "NEEDS_REVIEW" :=
  (category_verdict_partition_monotone.1 50 (by decide) (by decide)).2.2.1
    (by decide) (by decide)

theorem round2_mono {x y : ℚ} (h : x ≤ y) : round2 x ≤ round2 y := by
  unfold round2
  have hr : round (x * 100) ≤ round (y * 100) :=
    round_le_round (by nlinarith)
  have hc : ((round (x * 100) : ℤ) : ℚ) ≤ ((round (y * 100) : ℤ) : ℚ) := by
    exact_mod_cast hr
  linarith

theorem round2_int {n : ℤ} : round2 ((n : ℚ) / 100) = (n : ℚ) / 100 := by
  unfold round2
  rw [show ((n : ℚ) / 100) * 100 = (n : ℚ) by field_simp, round_intCast]

/-- **C6.**  For agent result dicts carrying scores `t, s ∈ [0,100]`, the
mediator's confidence equals
`round(clamp(0.5·(1 − |t − s|/100) + 0.5·((|t−50|/50 + |s−50|/50)/2),
0.30, 0.98), 2)`, and it always lies in `[0.30, 0.98]` — never full
certainty.  (The range bound holds for every pair of dicts, with no
assumption at all.) -/
theorem confidence_formula_and_range :
    (∀ (d₁ d₂ : AgentDict) (t s : ℤ), d₁.score = some t → d₂.score = some s →
        0 ≤ t → t ≤ 100 → 0 ≤ s → s ≤ 100 →
        calculate_confidence d₁ d₂ = confidence_spec t s) ∧
      (∀ d₁ d₂ : AgentDict,
        3 / 10 ≤ calculate_confidence d₁ d₂ ∧
          calculate_confidence d₁ d₂ ≤ 98 / 100) := by
  constructor
  · intro d₁ d₂ t s h₁ h₂ _ _ _ _
    simp only [calculate_confidence, confidence_spec, h₁, h₂, Option.getD_some]
    congr 1
    ring_nf
  · intro d₁ d₂
    unfold calculate_confidence
    set c : ℚ := (1 - ((|d₁.score.getD 50 - d₂.score.getD 50| : ℤ) : ℚ) / 100) *
        (5 / 10) +
      (((|d₁.score.getD 50 - 50| : ℤ) : ℚ) / 50 +
          ((|d₂.score.getD 50 - 50| : ℤ) : ℚ) / 50) / 2 * (5 / 10) with hc
    have hlo : (3 / 10 : ℚ) ≤ max (3 / 10) (min (98 / 100) c) := le_max_left _ _
    have hhi : max (3 / 10) (min (98 / 100) c) ≤ 98 / 100 :=
      max_le (by norm_num) (min_le_left _ _)
    constructor
    · have h1 := round2_mono hlo
      have h2 : round2 (3 / 10 : ℚ) = 3 / 10 := by
        rw [show (3 / 10 : ℚ) = ((30 : ℤ) : ℚ) / 100 by norm_num, round2_int]
      calc (3 / 10 : ℚ) = round2 (3 / 10) := h2.symm
        _ ≤ _ := h1
    · have h1 := round2_mono hhi
      have h2 : round2 (98 / 100 : ℚ) = 98 / 100 := by
        rw [show (98 / 100 : ℚ) = ((98 : ℤ) : ℚ) / 100 by norm_num, round2_int]
      calc round2 (max (3 / 10) (min (98 / 100) c)) ≤ round2 (98 / 100) := h1
        _ = 98 / 100 := h2

/-- Witness for C6 at `t = 80`, `s = 60`. -/
theorem confidence_formula_and_range_witness :
    calculate_confidence ⟨some 80, [], none, none⟩ ⟨some 60, [], none, none⟩ =
      confidence_spec 80 60 :=
  confidence_formula_and_range.1 _ _ 80 60 rfl rfl (by norm_num) (by norm_num)
    (by norm_num) (by norm_num)

/-- The mediator's confidence at trust = safety = 50 is exactly `1/2`:
agreement is `1` (the scores are equal), extremity is `0`, so the combined
value is `0.5·1 + 0.5·0 = 0.5`, left unchanged by the `[0.30, 0.98]` clamp
and the two-decimal rounding. -/
theorem confidence_at_neutral :
    calculate_confidence ⟨some 50, [], none, none⟩ ⟨some 50, [], none, none⟩ =
      1 / 2 := by
  have h : calculate_confidence ⟨some 50, [], none, none⟩
      ⟨some 50, [], none, none⟩ = round2 (1 / 2) := by
    simp only [calculate_confidence, Option.getD_some]
    norm_num
  rw [h, show (1 / 2 : ℚ) = ((50 : ℤ) : ℚ) / 100 by norm_num, round2_int]

/-- **C7 counterexample.**  The claim asserts confidence at `(50, 50)` is
"in the region of the 0.30 floor"; in fact it is exactly `0.5` — not even
below `0.4`.  (Perfect agreement contributes `0.5` despite zero
extremity.) -/
theorem confidence_at_neutral_not_near_floor :
    calculate_confidence ⟨some 50, [], none, none⟩ ⟨some 50, [], none, none⟩ =
        1 / 2 ∧
      ¬(calculate_confidence ⟨some 50, [], none, none⟩
          ⟨some 50, [], none, none⟩ < 4 / 10) := by
  refine ⟨confidence_at_neutral, ?_⟩
  rw [confidence_at_neutral]
  norm_num

/-- **C7 (amended).**  When both the trust score and the safety score equal
50, the mediator's confidence is exactly 0.5 — the agreement term
dominates, so the value sits mid-range, not at the 0.30 floor. -/
theorem confidence_at_neutral_is_half :
    calculate_confidence ⟨some 50, [], none, none⟩ ⟨some 50, [], none, none⟩ =
      1 / 2 :=
  confidence_at_neutral

/-- Two suffixes of the same list with equal lengths coincide. -/
theorem suffix_unique_of_length {l s₁ s₂ : List Char}
    (h₁ : s₁ <:+ l) (h₂ : s₂ <:+ l) (hlen : s₁.length = s₂.length) :
    s₁ = s₂ := by
  obtain ⟨t₁, ht₁⟩ := h₁
  obtain ⟨t₂, ht₂⟩ := h₂
  have h := ht₁.trans ht₂.symm
  have hl : t₁.length = t₂.length := by
    have hlen2 := congrArg List.length h
    simp only [List.length_append] at hlen2
    omega
  exact List.append_inj_right h hl

/-- Ending in one three-character suffix excludes ending in a different one
of the same length. -/
theorem pyEndsWith_exclusive {l p q : PyStr} (hlen : p.length = q.length)
    (hne : p ≠ q) (hp : pyEndsWith l p = true) : pyEndsWith l q = false := by
  simp only [pyEndsWith, List.isSuffixOf_iff_suffix] at hp
  simp only [pyEndsWith, Bool.eq_false_iff, ne_eq, List.isSuffixOf_iff_suffix]
  intro hq
  exact hne (suffix_unique_of_length hp hq hlen)

/-- **C3.**  `evaluate_reputation` is a total deterministic function of the
input string: after lowercasing, a suffix `888` always yields score 95
(regardless of the other characters), a suffix `000` always yields 10, a
suffix `123` or `abc` yields 65, and every other string yields exactly 50 —
the first-match-wins rule table is exhaustive and the distinct
three-character suffixes are mutually exclusive. -/
theorem evaluate_reputation_rule_table :
    ∀ a : PyStr,
      (pyEndsWith (pyLower a) "888".toList = true →
        (evaluate_reputation a).score = 95) ∧
      (pyEndsWith (pyLower a) "000".toList = true →
        (evaluate_reputation a).score = 10) ∧
      ((pyEndsWith (pyLower a) "123".toList = true ∨
          pyEndsWith (pyLower a) "abc".toList = true) →
        (evaluate_reputation a).score = 65) ∧
      (pyEndsWith (pyLower a) "888".toList = false →
        pyEndsWith (pyLower a) "000".toList = false →
        pyEndsWith (pyLower a) "123".toList = false →
        pyEndsWith (pyLower a) "abc".toList = false →
        (evaluate_reputation a).score = 50) := by
  intro a
  refine ⟨fun h => ?_, fun h => ?_, fun h => ?_, fun h1 h2 h3 h4 => ?_⟩
  · simp only [evaluate_reputation]
    rw [h]
    simp
  · have h8 : pyEndsWith (pyLower a) "888".toList = false :=
      pyEndsWith_exclusive (by decide) (by decide) h
    simp only [evaluate_reputation]
    rw [h8, h]
    simp
  · rcases h with h | h
    · have h8 : pyEndsWith (pyLower a) "888".toList = false :=
        pyEndsWith_exclusive (by decide) (by decide) h
      have h0 : pyEndsWith (pyLower a) "000".toList = false :=
        pyEndsWith_exclusive (by decide) (by decide) h
      simp only [evaluate_reputation]
      rw [h8, h0, h]
      simp
    · have h8 : pyEndsWith (pyLower a) "888".toList = false :=
        pyEndsWith_exclusive (by decide) (by decide) h
      have h0 : pyEndsWith (pyLower a) "000".toList = false :=
        pyEndsWith_exclusive (by decide) (by decide) h
      simp only [evaluate_reputation]
      rw [h8, h0, h]
      simp
  · simp only [evaluate_reputation]
    rw [h1, h2, h3, h4]
    simp

/-- Witness for C3: a whale-suffixed address (with uppercase letters
elsewhere) scores 95. -/
theorem evaluate_reputation_rule_table_witness :
    (evaluate_reputation "0xAbC888".toList).score = 95 :=
  (evaluate_reputation_rule_table "0xAbC888".toList).1 (by decide)

/-- Unrolling the phrase-scanning fold: it appends one flag per matching
table entry, in table order, and adds exactly the matching weights. -/
theorem fallback_scan_eq (tl : PyStr) (table : List (String × ℤ))
    (acc : List JsonVal × ℤ) :
    table.foldl (fallback_scan_step tl) acc =
      (acc.1 ++ (table.filter (fun pw => pyContains tl pw.1.toList)).map
          (fun pw => JsonVal.jstr ("Detected: '" ++ pw.1 ++ "'")),
        acc.2 +
          ((table.filter (fun pw => pyContains tl pw.1.toList)).map
            Prod.snd).sum) := by
  induction table generalizing acc with
  | nil => simp
  | cons hd tl2 ih =>
    simp only [List.foldl_cons, List.filter_cons]
    by_cases h : pyContains tl hd.1.toList = true
    · rw [ih]
      simp only [fallback_scan_step, h, if_true]
      refine Prod.ext ?_ ?_
      · simp [List.append_assoc]
      · simp only [List.map_cons, List.sum_cons]
        ring
    · rw [ih]
      simp only [fallback_scan_step, h]
      simp [h]

/-- **C4.**  For every input text, the fallback content score equals
`clamp(85 − total_penalty, 0, 100)` with `total_penalty` the sum of the
matched phrase weights plus 15 for a short text plus 10 for excessive
uppercase; each matched condition contributes exactly one flag; and the
analysis is deterministic. -/
theorem analyze_fallback_score_and_flags :
    ∀ text : PyStr,
      (analyze_fallback text).score =
          some (max 0 (min 100 (85 - total_penalty_spec text))) ∧
        (analyze_fallback text).red_flags.length =
          matched_conditions_spec text ∧
        analyze_fallback text = analyze_fallback text := by
  intro text
  refine ⟨?_, ?_, rfl⟩ <;>
  · simp only [analyze_fallback, fallback_scan_eq, List.nil_append,
      total_penalty_spec, matched_conditions_spec]
    split_ifs <;> simp [List.length_append]

/-- The fallback dict always carries a score. -/
theorem analyze_fallback_score_present (text : PyStr) :
    (analyze_fallback text).score ≠ none := by
  simp [analyze_fallback]

/-- Exactly the head outcome of the oracle is consumed by one call. -/
theorem analyze_with_gemini_consumes_one (parse : PyStr → Option JsonVal)
    (outcome : GeminiOutcome) (rest : List GeminiOutcome) (text : PyStr) :
    (analyze_with_gemini parse (outcome :: rest) text).2 = rest := by
  cases outcome with
  | failure => rfl
  | success txt =>
    simp only [analyze_with_gemini]
    rcases hst : strip_code_fences txt with _ | s
    · simp
    · simp only []
      rcases hpr : parse s with _ | j
      · simp [hpr]
      · cases j with
        | jobj fields =>
          simp only [hpr]
          rcases hn : pyInt ((jget fields "score").getD (.jnum 50))
            with _ | n <;> simp [hn]
        | jnull => simp [hpr]
        | jbool b => simp [hpr]
        | jnum q => simp [hpr]
        | jstr s2 => simp [hpr]
        | jarr xs => simp [hpr]

/-- **C5.**  `_analyze_with_gemini` never propagates a failure: a failed
invocation, a response whose fence stripping raises, an unparseable
response, a non-object JSON value, and a malformed score all return the
fallback result for the same text; at most one oracle outcome is consumed
per evaluation (no retry); on the success path the parse is applied to the
fence-stripped response text, the parsed score is coerced to an integer and
clamped to `[0,100]`, and the flags default to `[]` when absent; and every
path produces a dict with a present score. -/
theorem analyze_with_gemini_error_handling :
    (∀ parse text,
        (analyze_with_gemini parse [] text).1 = analyze_fallback text) ∧
      (∀ parse rest text,
        (analyze_with_gemini parse (.failure :: rest) text).1 =
          analyze_fallback text) ∧
      (∀ parse rest text txt, strip_code_fences txt = none →
        (analyze_with_gemini parse (.success txt :: rest) text).1 =
          analyze_fallback text) ∧
      (∀ parse rest text txt s, strip_code_fences txt = some s →
        parse s = none →
        (analyze_with_gemini parse (.success txt :: rest) text).1 =
          analyze_fallback text) ∧
      (∀ parse rest text txt s j, strip_code_fences txt = some s →
        parse s = some j → (∀ fields, j ≠ .jobj fields) →
        (analyze_with_gemini parse (.success txt :: rest) text).1 =
          analyze_fallback text) ∧
      (∀ parse rest text txt s fields, strip_code_fences txt = some s →
        parse s = some (.jobj fields) →
        pyInt ((jget fields "score").getD (.jnum 50)) = none →
        (analyze_with_gemini parse (.success txt :: rest) text).1 =
          analyze_fallback text) ∧
      (∀ parse rest text txt s fields n, strip_code_fences txt = some s →
        parse s = some (.jobj fields) →
        pyInt ((jget fields "score").getD (.jnum 50)) = some n →
        (analyze_with_gemini parse (.success txt :: rest) text).1.score =
            some (max 0 (min 100 n)) ∧
          (jget fields "red_flags" = none →
            (analyze_with_gemini parse (.success txt :: rest) text).1.red_flags
              = [])) ∧
      (∀ parse responses text,
        responses.length -
            ((analyze_with_gemini parse responses text).2).length ≤ 1) ∧
      (∀ parse responses text,
        (analyze_with_gemini parse responses text).1.score ≠ none) := by
  refine ⟨fun parse text => rfl, fun parse rest text => rfl,
    fun parse rest text txt h => ?_, fun parse rest text txt s h hp => ?_,
    fun parse rest text txt s j h hp hno => ?_,
    fun parse rest text txt s fields h hp hn => ?_,
    fun parse rest text txt s fields n h hp hn => ?_,
    fun parse responses text => ?_, fun parse responses text => ?_⟩
  · simp [analyze_with_gemini, h]
  · simp [analyze_with_gemini, h, hp]
  · cases j with
    | jobj fields => exact absurd rfl (hno fields)
    | jnull => simp [analyze_with_gemini, h, hp]
    | jbool b => simp [analyze_with_gemini, h, hp]
    | jnum q => simp [analyze_with_gemini, h, hp]
    | jstr s2 => simp [analyze_with_gemini, h, hp]
    | jarr xs => simp [analyze_with_gemini, h, hp]
  · simp [analyze_with_gemini, h, hp, hn]
  · constructor
    · simp [analyze_with_gemini, h, hp, hn]
    · intro hflags
      simp [analyze_with_gemini, h, hp, hn, hflags]
  · rcases responses with _ | ⟨outcome, rest⟩
    · simp [analyze_with_gemini]
    · rw [analyze_with_gemini_consumes_one]
      simp
  · rcases responses with _ | ⟨outcome, rest⟩
    · simp [analyze_with_gemini, analyze_fallback_score_present]
    · cases outcome with
      | failure => simp [analyze_with_gemini, analyze_fallback_score_present]
      | success txt =>
        simp only [analyze_with_gemini]
        rcases hst : strip_code_fences txt with _ | s
        · simp [analyze_fallback_score_present]
        · simp only []
          rcases hpr : parse s with _ | j
          · simp [hpr, analyze_fallback_score_present]
          · cases j with
            | jobj fields =>
              simp only [hpr]
              rcases hn : pyInt ((jget fields "score").getD (.jnum 50))
                with _ | n <;> simp [hn, analyze_fallback_score_present]
            | jnull => simp [hpr, analyze_fallback_score_present]
            | jbool b => simp [hpr, analyze_fallback_score_present]
            | jnum q => simp [hpr, analyze_fallback_score_present]
            | jstr s2 => simp [hpr, analyze_fallback_score_present]
            | jarr xs => simp [hpr, analyze_fallback_score_present]

/-- Witness for C5: a concrete unparseable response routes to the
fallback. -/
theorem analyze_with_gemini_error_handling_witness :
    (analyze_with_gemini (fun _ => none) [.success "nonsense".toList]
        "some proposal".toList).1 =
      analyze_fallback "some proposal".toList :=
  analyze_with_gemini_error_handling.2.2.2.1 (fun _ => none) []
    "some proposal".toList "nonsense".toList "nonsense".toList (by decide) rfl

/-- **C10.**  A missing `score` key in either input dict is replaced by the
neutral default 50, in `mediate` and in `_calculate_confidence` alike: the
result is identical to the one for an explicit score of 50, and a complete
`AnalysisResult` is still produced (the function is total). -/
theorem mediate_defaults_missing_score :
    (∀ (pid : String) (rf : List JsonVal) (hist rsn : Option String)
        (nlp : AgentDict) (addr : PyStr),
      mediate pid ⟨none, rf, hist, rsn⟩ nlp addr =
        mediate pid ⟨some 50, rf, hist, rsn⟩ nlp addr) ∧
      (∀ (pid : String) (rep : AgentDict) (rf : List JsonVal)
          (hist rsn : Option String) (addr : PyStr),
        mediate pid rep ⟨none, rf, hist, rsn⟩ addr =
          mediate pid rep ⟨some 50, rf, hist, rsn⟩ addr) ∧
      (∀ (rf : List JsonVal) (hist rsn : Option String) (d : AgentDict),
        calculate_confidence ⟨none, rf, hist, rsn⟩ d =
          calculate_confidence ⟨some 50, rf, hist, rsn⟩ d) ∧
      (∀ (rf : List JsonVal) (hist rsn : Option String) (d : AgentDict),
        calculate_confidence d ⟨none, rf, hist, rsn⟩ =
          calculate_confidence d ⟨some 50, rf, hist, rsn⟩) :=
  ⟨fun _ _ _ _ _ _ => rfl, fun _ _ _ _ _ _ => rfl, fun _ _ _ _ => rfl,
    fun _ _ _ _ => rfl⟩

/-- The risk score returned by `calculate_risk_score` is clamped to
`[0,100]` by construction. -/
theorem calculate_risk_score_range (t s : ℤ) :
    0 ≤ (calculate_risk_score t s).1 ∧ (calculate_risk_score t s).1 ≤ 100 := by
  simp only [calculate_risk_score]
  exact ⟨le_max_left 0 _, max_le (by norm_num) (min_le_left _ _)⟩

/-- For `r ∈ [0,100]`, the clamp in the success probability is the identity
and so is the two-decimal rounding (`1 − r/100` is an exact multiple of
`1/100`). -/
theorem success_probability_round2_id {r : ℤ} (h0 : 0 ≤ r) (h1 : r ≤ 100) :
    round2 (max 0 (min 1 (1 - (r : ℚ) / 100))) =
      max 0 (min 1 (1 - (r : ℚ) / 100)) := by
  have hr0 : (0 : ℚ) ≤ (r : ℚ) := by exact_mod_cast h0
  have hr1 : (r : ℚ) ≤ 100 := by exact_mod_cast h1
  have hin : max 0 (min 1 (1 - (r : ℚ) / 100)) = 1 - (r : ℚ) / 100 := by
    rw [min_eq_right (by linarith), max_eq_right (by linarith)]
  rw [hin, show (1 : ℚ) - (r : ℚ) / 100 = ((100 - r : ℤ) : ℚ) / 100 by
    push_cast; ring, round2_int]

/-- The external-facing renaming of the verdict agrees with
`determine_verdict` in both directions, for any risk score. -/
theorem classification_matches_verdict (r : ℤ) (c : RiskCategory) :
    ((if determine_verdict r c == "AUTO_APPROVE" then "LIKELY_APPROVED"
        else if determine_verdict r c == "AUTO_REJECT" then "LIKELY_REJECTED"
        else "NEEDS_REVIEW") = "LIKELY_APPROVED" ↔
      determine_verdict r c = "AUTO_APPROVE") ∧
    ((if determine_verdict r c == "AUTO_APPROVE" then "LIKELY_APPROVED"
        else if determine_verdict r c == "AUTO_REJECT" then "LIKELY_REJECTED"
        else "NEEDS_REVIEW") = "LIKELY_REJECTED" ↔
      determine_verdict r c = "AUTO_REJECT") ∧
    (determine_verdict r c ≠ "AUTO_APPROVE" →
      determine_verdict r c ≠ "AUTO_REJECT" →
      (if determine_verdict r c == "AUTO_APPROVE" then "LIKELY_APPROVED"
        else if determine_verdict r c == "AUTO_REJECT" then "LIKELY_REJECTED"
        else "NEEDS_REVIEW") = "NEEDS_REVIEW") := by
  simp only [determine_verdict]
  split_ifs <;> simp_all [beq_iff_eq]

/-- **C9.**  For every simulate call, the returned success probability
equals `clamp(1 − risk/100, 0, 1)` for the returned risk score, and the
returned classification is `LIKELY_APPROVED` exactly when the verdict for
that risk is `AUTO_APPROVE`, `LIKELY_REJECTED` exactly when it is
`AUTO_REJECT`, and `NEEDS_REVIEW` otherwise. -/
theorem simulate_probability_and_classification :
    ∀ (available : Bool) (parse : PyStr → Option JsonVal)
      (responses : List GeminiOutcome) (draft : PyStr),
      (simulate_proposal available parse responses draft).success_probability
          = max 0 (min 1 (1 -
            ((simulate_proposal available parse responses draft).risk_score :
              ℚ) / 100)) ∧
        ∀ c : RiskCategory,
          ((simulate_proposal available parse responses draft).classification
              = "LIKELY_APPROVED" ↔
            determine_verdict
              (simulate_proposal available parse responses draft).risk_score c
              = "AUTO_APPROVE") ∧
          ((simulate_proposal available parse responses draft).classification
              = "LIKELY_REJECTED" ↔
            determine_verdict
              (simulate_proposal available parse responses draft).risk_score c
              = "AUTO_REJECT") ∧
          (determine_verdict
              (simulate_proposal available parse responses draft).risk_score c
              ≠ "AUTO_APPROVE" →
            determine_verdict
              (simulate_proposal available parse responses draft).risk_score c
              ≠ "AUTO_REJECT" →
            (simulate_proposal available parse responses draft).classification
              = "NEEDS_REVIEW") := by
  intro available parse responses draft
  simp only [simulate_proposal]
  have hrange := calculate_risk_score_range 50
    ((evaluate_content available parse responses
      (extract_title_description draft).1
      (extract_title_description draft).2).score.getD 50)
  refine ⟨success_probability_round2_id hrange.1 hrange.2, fun c => ?_⟩
  have hv : ∀ c' : RiskCategory,
      determine_verdict (calculate_risk_score 50
        ((evaluate_content available parse responses
          (extract_title_description draft).1
          (extract_title_description draft).2).score.getD 50)).1 c' =
        determine_verdict (calculate_risk_score 50
          ((evaluate_content available parse responses
            (extract_title_description draft).1
            (extract_title_description draft).2).score.getD 50)).1
          (calculate_risk_score 50
            ((evaluate_content available parse responses
              (extract_title_description draft).1
              (extract_title_description draft).2).score.getD 50)).2 := by
    intro c'
    rfl
  rw [hv c]
  exact classification_matches_verdict _ _

set_option maxRecDepth 100000 in
/-- Witness for C9 (the classification conjunct carries hypotheses): on a
concrete single-line draft the fallback safety score is 70, the risk is 38,
the verdict is `NEEDS_REVIEW` and so is the classification. -/
theorem simulate_probability_and_classification_witness :
    (simulate_proposal false (fun _ => none) []
        simulate_draft_example).classification = "NEEDS_REVIEW" := by
  have hr : (simulate_proposal false (fun _ => none) []
      simulate_draft_example).risk_score = 38 := by
    have hsc : (evaluate_content false (fun _ => none) []
        (extract_title_description simulate_draft_example).1
        (extract_title_description simulate_draft_example).2).score =
        some 70 := by decide
    simp only [simulate_proposal]
    rw [hsc]
    exact calculate_risk_score_eval (by norm_num) (by norm_num) (by norm_num)
  exact ((simulate_probability_and_classification false (fun _ => none) []
      simulate_draft_example).2 RiskCategory.medium).2.2
    (by rw [hr]; decide) (by rw [hr]; decide)

/-- A wallet matched by no suffix rule evaluates to the neutral default
result with score 50. -/
theorem evaluate_reputation_no_match {a : PyStr}
    (h1 : pyEndsWith (pyLower a) "888".toList = false)
    (h2 : pyEndsWith (pyLower a) "000".toList = false)
    (h3 : pyEndsWith (pyLower a) "123".toList = false)
    (h4 : pyEndsWith (pyLower a) "abc".toList = false) :
    evaluate_reputation a =
      { score := 50
        history := "No History Found"
        reasoning := "Neutral score due to lack of on-chain history. Additional verification recommended."
        analysis_log := [
          "ℹ️ No On-Chain History Found",
          "ℹ️ Unable to verify wallet age",
          "ℹ️ No DAO participation records",
          "⚠️ Recommend additional verification"] } := by
  simp only [evaluate_reputation]
  rw [h1, h2, h3, h4]
  simp

/-- **C8.**  On identical text, with the content evaluator in its
deterministic fallback mode for both calls, the simulate pipeline and the
full analyze pipeline with an identity token matching no suffix rule (hence
trust score exactly 50) produce the same risk score. -/
theorem analyze_simulate_same_risk :
    ∀ (parse : PyStr → Option JsonVal) (responses : List GeminiOutcome)
      (pid : String) (text wallet : PyStr),
      pyEndsWith (pyLower wallet) "888".toList = false →
      pyEndsWith (pyLower wallet) "000".toList = false →
      pyEndsWith (pyLower wallet) "123".toList = false →
      pyEndsWith (pyLower wallet) "abc".toList = false →
      (analyze_proposal false parse responses pid text wallet).risk_score =
        (simulate_proposal false parse responses text).risk_score := by
  intro parse responses pid text wallet h1 h2 h3 h4
  simp only [analyze_proposal, simulate_proposal, mediate,
    evaluate_reputation_no_match h1 h2 h3 h4, ReputationResult.toDict,
    Option.getD_some]

/-- Witness for C8 at a concrete wallet and two-line proposal text. -/
theorem analyze_simulate_same_risk_witness :
    (analyze_proposal false (fun _ => none) [] "prop-1"
        "Proposal X\nSome body text".toList "0xdead".toList).risk_score =
      (simulate_proposal false (fun _ => none) []
        "Proposal X\nSome body text".toList).risk_score :=
  analyze_simulate_same_risk (fun _ => none) [] "prop-1"
    "Proposal X\nSome body text".toList "0xdead".toList
    (by decide) (by decide) (by decide) (by decide)

end AiGuardDao
